import Mathlib

/-!
Verification of the numal repository core (src/core/error.rs and
src/core/tolerance.rs).

Finite `f64` values are modelled as exact rationals; the IEEE-754 special
values `+inf`, `-inf` and NaN are modelled explicitly, with the IEEE
semantics of subtraction, addition, multiplication, absolute value and the
ordering comparisons on them (any comparison involving NaN is false,
`inf - inf` and `0 * inf` are NaN, and so on).  Rounding of finite
arithmetic is not modelled; none of the verified properties depends on it.
-/

namespace Numal

/-- Model of Rust `f64`: exact rationals for finite values plus the three
IEEE-754 special values. -/
inductive F64 where
  | finite (val : ℚ)
  | inf
  | negInf
  | nan
deriving DecidableEq

namespace F64

/-- IEEE-754 `f64` subtraction (the `a - b` inside `is_close`). -/
def sub : F64 → F64 → F64
  | nan, _ => nan
  | _, nan => nan
  | finite x, finite y => finite (x - y)
  | finite _, inf => negInf
  | finite _, negInf => inf
  | inf, finite _ => inf
  | inf, inf => nan
  | inf, negInf => inf
  | negInf, finite _ => negInf
  | negInf, inf => negInf
  | negInf, negInf => nan

/-- IEEE-754 `f64::abs`. -/
def abs : F64 → F64
  | finite x => finite (if x < 0 then -x else x)
  | inf => inf
  | negInf => inf
  | nan => nan

/-- IEEE-754 `f64` addition. -/
def add : F64 → F64 → F64
  | nan, _ => nan
  | _, nan => nan
  | finite x, finite y => finite (x + y)
  | finite _, inf => inf
  | finite _, negInf => negInf
  | inf, finite _ => inf
  | inf, inf => inf
  | inf, negInf => nan
  | negInf, finite _ => negInf
  | negInf, inf => nan
  | negInf, negInf => negInf

/-- IEEE-754 `f64` multiplication (`0 * inf` is NaN). -/
def mul : F64 → F64 → F64
  | nan, _ => nan
  | _, nan => nan
  | finite x, finite y => finite (x * y)
  | finite x, inf => if x = 0 then nan else if 0 < x then inf else negInf
  | finite x, negInf => if x = 0 then nan else if 0 < x then negInf else inf
  | inf, finite y => if y = 0 then nan else if 0 < y then inf else negInf
  | inf, inf => inf
  | inf, negInf => negInf
  | negInf, finite y => if y = 0 then nan else if 0 < y then negInf else inf
  | negInf, inf => negInf
  | negInf, negInf => inf

/-- IEEE-754 `f64` comparison `x <= y`; false whenever either side is NaN. -/
def fle : F64 → F64 → Bool
  | nan, _ => false
  | _, nan => false
  | negInf, _ => true
  | _, inf => true
  | finite x, finite y => decide (x ≤ y)
  | finite _, negInf => false
  | inf, finite _ => false
  | inf, negInf => false

/-- IEEE-754 `f64` comparison `x < y`; false whenever either side is NaN. -/
def flt : F64 → F64 → Bool
  | nan, _ => false
  | _, nan => false
  | negInf, negInf => false
  | negInf, _ => true
  | _, negInf => false
  | inf, _ => false
  | _, inf => true
  | finite x, finite y => decide (x < y)

/-- IEEE non-negativity `0.0 <= x`: true for `+inf`, false for NaN. -/
def nonneg (x : F64) : Prop := fle (finite 0) x = true

/-- IEEE strict positivity `0.0 < x`: true for `+inf`, false for NaN. -/
def pos (x : F64) : Prop := flt (finite 0) x = true

instance (x : F64) : Decidable (nonneg x) := by unfold nonneg; infer_instance

instance (x : F64) : Decidable (pos x) := by unfold pos; infer_instance

end F64

/-- Rust `NumalError` (src/core/error.rs). -/
inductive NumalError where
  | InvalidInput (msg : String)
  | DidNotConverge
  | DerivativeNotComputable
  | LibErr (msg : String)
deriving DecidableEq

/-- The `Display` implementation for `NumalError` (src/core/error.rs). -/
def NumalError.display : NumalError → String
  | .InvalidInput msg => "INVALID INPUT: " ++ msg
  | .DidNotConverge => "FAILED TO CONVERGE"
  | .DerivativeNotComputable => "DERIVATIVE NOT COMPUTABLE"
  | .LibErr msg => "NUMAL LIB ERROR: " ++ msg

/-- Rust `Tolerance` (src/core/tolerance.rs). -/
inductive Tolerance where
  | Custom (eps_abs eps_rel : F64)
  | Strict
  | Default
  | Loose
deriving DecidableEq

/-- `Tolerance::eps_abs` (src/core/tolerance.rs). -/
def Tolerance.eps_abs : Tolerance → F64
  | .Custom a _ => a
  | .Strict => .finite (1 / 10 ^ 12)
  | .Default => .finite (1 / 10 ^ 8)
  | .Loose => .finite (1 / 10 ^ 6)

/-- `Tolerance::eps_rel` (src/core/tolerance.rs). -/
def Tolerance.eps_rel : Tolerance → F64
  | .Custom _ r => r
  | .Strict => .finite (1 / 10 ^ 10)
  | .Default => .finite (1 / 10 ^ 6)
  | .Loose => .finite (1 / 10 ^ 4)

instance {ε α : Type} [DecidableEq ε] [DecidableEq α] : DecidableEq (Except ε α) :=
fun x y =>
  match x, y with
  | .ok a, .ok b =>
      if h : a = b then isTrue (by rw [h])
      else isFalse (by intro hc; cases hc; exact h rfl)
  | .error e, .error f =>
      if h : e = f then isTrue (by rw [h])
      else isFalse (by intro hc; cases hc; exact h rfl)
  | .ok _, .error _ => isFalse (by intro hc; cases hc)
  | .error _, .ok _ => isFalse (by intro hc; cases hc)

/-- `is_close` (src/core/tolerance.rs): Ok(true) if
`|a - b| <= eps_abs + eps_rel * |b|`, otherwise Err(DidNotConverge). -/
def is_close (a b : F64) (tol : Tolerance) : Except NumalError Bool :=
  if F64.fle (F64.abs (F64.sub a b))
      (F64.add tol.eps_abs (F64.mul tol.eps_rel (F64.abs b)))
  then Except.ok true
  else Except.error NumalError.DidNotConverge

theorem F64.fle_nan_right (x : F64) : F64.fle x F64.nan = false := by
  cases x <;> rfl

theorem F64.sub_self_finite (x : ℚ) :
    F64.sub (F64.finite x) (F64.finite x) = F64.finite 0 := by
  simp [F64.sub]

theorem F64.abs_finite_zero : F64.abs (F64.finite 0) = F64.finite 0 := by
  simp [F64.abs]

theorem F64.abs_finite_nonneg (x : ℚ) :
    ∃ y : ℚ, F64.abs (F64.finite x) = F64.finite y ∧ 0 ≤ y := by
  refine ⟨if x < 0 then -x else x, rfl, ?_⟩
  split <;> linarith

/-- Claim C1: for all inputs and tolerance policies, `is_close` returns
Ok(true) exactly when `|a - b| <= eps_abs + eps_rel * |b|` holds under IEEE
comparison semantics, and otherwise returns Err(DidNotConverge); Ok(false)
is never returned. -/
theorem c1_is_close_contract (a b : F64) (tol : Tolerance) :
    (is_close a b tol = Except.ok true ↔
      F64.fle (F64.abs (F64.sub a b))
        (F64.add tol.eps_abs (F64.mul tol.eps_rel (F64.abs b))) = true) ∧
    (is_close a b tol = Except.ok true ∨
      is_close a b tol = Except.error NumalError.DidNotConverge) := by
  unfold is_close
  cases hfle : F64.fle (F64.abs (F64.sub a b))
      (F64.add tol.eps_abs (F64.mul tol.eps_rel (F64.abs b))) <;>
    simp [hfle]

/-- Claim C2: the three named presets resolve to exactly the tabulated
constants: eps_abs is 1e-12 / 1e-8 / 1e-6 and eps_rel is 1e-10 / 1e-6 /
1e-4 for Strict / Default / Loose; both accessors are total functions. -/
theorem c2_preset_constants :
    Tolerance.eps_abs Tolerance.Strict = F64.finite (1 / 10 ^ 12) ∧
    Tolerance.eps_abs Tolerance.Default = F64.finite (1 / 10 ^ 8) ∧
    Tolerance.eps_abs Tolerance.Loose = F64.finite (1 / 10 ^ 6) ∧
    Tolerance.eps_rel Tolerance.Strict = F64.finite (1 / 10 ^ 10) ∧
    Tolerance.eps_rel Tolerance.Default = F64.finite (1 / 10 ^ 6) ∧
    Tolerance.eps_rel Tolerance.Loose = F64.finite (1 / 10 ^ 4) :=
  ⟨rfl, rfl, rfl, rfl, rfl, rfl⟩

/-- Claim C3: whenever `a` or `b` is NaN, `is_close` fails with
DidNotConverge, for every tolerance policy. -/
theorem c3_nan_inputs (a b : F64) (tol : Tolerance)
    (h : a = F64.nan ∨ b = F64.nan) :
    is_close a b tol = Except.error NumalError.DidNotConverge := by
  rcases h with h | h <;> subst h
  · simp [is_close, F64.sub, F64.abs, F64.fle]
  · cases a <;> simp [is_close, F64.sub, F64.abs, F64.fle]

theorem c3_nan_inputs_witness :
    is_close F64.nan (F64.finite 1) Tolerance.Default
      = Except.error NumalError.DidNotConverge :=
  c3_nan_inputs F64.nan (F64.finite 1) Tolerance.Default (Or.inl rfl)

/-- Claim C4, counterexample: the policy `Custom { eps_abs: 0.0, eps_rel: +inf }`
has two non-negative fields under IEEE comparison (`0.0 <= +inf` is true),
yet `is_close(0.0, 0.0, policy)` fails, because the budget
`0.0 + inf * |0.0|` evaluates to NaN. -/
theorem c4_counterexample :
    F64.nonneg (Tolerance.eps_abs (Tolerance.Custom (F64.finite 0) F64.inf)) ∧
    F64.nonneg (Tolerance.eps_rel (Tolerance.Custom (F64.finite 0) F64.inf)) ∧
    is_close (F64.finite 0) (F64.finite 0)
        (Tolerance.Custom (F64.finite 0) F64.inf)
      = Except.error NumalError.DidNotConverge := by
  refine ⟨by simp [F64.nonneg, F64.fle, Tolerance.eps_abs],
    by simp [F64.nonneg, F64.fle, Tolerance.eps_rel], ?_⟩
  simp [is_close, Tolerance.eps_abs, Tolerance.eps_rel, F64.sub, F64.abs,
    F64.mul, F64.add, F64.fle]

/-- Claim C4 (amended): for every finite x and every policy whose eps_abs is
non-negative and whose eps_rel is non-negative and not +inf,
`is_close(x, x, policy)` succeeds with Ok(true). -/
theorem c4_reflexive_finite (x : ℚ) (tol : Tolerance)
    (habs : F64.nonneg tol.eps_abs) (hrel : F64.nonneg tol.eps_rel)
    (hfin : tol.eps_rel ≠ F64.inf) :
    is_close (F64.finite x) (F64.finite x) tol = Except.ok true := by
  obtain ⟨y, hy, hy0⟩ := F64.abs_finite_nonneg x
  unfold is_close
  rw [F64.sub_self_finite, F64.abs_finite_zero, hy]
  unfold F64.nonneg at habs hrel
  cases hR : tol.eps_rel with
  | finite r =>
      rw [hR] at hrel
      simp only [F64.fle, decide_eq_true_eq] at hrel
      cases hA : tol.eps_abs with
      | finite q =>
          rw [hA] at habs
          simp only [F64.fle, decide_eq_true_eq] at habs
          have hbudget : (0 : ℚ) ≤ q + r * y :=
            add_nonneg habs (mul_nonneg hrel hy0)
          simp [F64.mul, F64.add, F64.fle, hbudget]
      | inf => simp [F64.mul, F64.add, F64.fle]
      | negInf => rw [hA] at habs; simp [F64.fle] at habs
      | nan => rw [hA] at habs; simp [F64.fle] at habs
  | inf => exact absurd hR hfin
  | negInf => rw [hR] at hrel; simp [F64.fle] at hrel
  | nan => rw [hR] at hrel; simp [F64.fle] at hrel

theorem c4_reflexive_finite_witness :
    F64.nonneg (Tolerance.eps_abs (Tolerance.Custom (F64.finite 0) (F64.finite 0))) ∧
    F64.nonneg (Tolerance.eps_rel (Tolerance.Custom (F64.finite 0) (F64.finite 0))) ∧
    Tolerance.eps_rel (Tolerance.Custom (F64.finite 0) (F64.finite 0)) ≠ F64.inf ∧
    is_close (F64.finite 2) (F64.finite 2)
        (Tolerance.Custom (F64.finite 0) (F64.finite 0)) = Except.ok true :=
  ⟨by simp [F64.nonneg, F64.fle, Tolerance.eps_abs],
   by simp [F64.nonneg, F64.fle, Tolerance.eps_rel],
   by simp [Tolerance.eps_rel],
   c4_reflexive_finite 2 (Tolerance.Custom (F64.finite 0) (F64.finite 0))
     (by simp [F64.nonneg, F64.fle, Tolerance.eps_abs])
     (by simp [F64.nonneg, F64.fle, Tolerance.eps_rel])
     (by simp [Tolerance.eps_rel])⟩

/-- Claim C5: `is_close` is not symmetric — there are inputs and a policy
where `is_close a b p` succeeds while `is_close b a p` fails, because the
relative term scales by `|b|` only. -/
theorem c5_asymmetry :
    ∃ (a b : F64) (p : Tolerance),
      is_close a b p = Except.ok true ∧
      is_close b a p = Except.error NumalError.DidNotConverge := by
  refine ⟨F64.finite 0, F64.finite 100,
    Tolerance.Custom (F64.finite 0) (F64.finite 1), ?_, ?_⟩ <;>
    norm_num [is_close, Tolerance.eps_abs, Tolerance.eps_rel, F64.sub,
      F64.abs, F64.mul, F64.add, F64.fle]

/-- Claim C6: for Custom policies the accessors return the caller-supplied
fields unchanged, for every pair of values including NaN and infinities. -/
theorem c6_custom_accessors (a r : F64) :
    Tolerance.eps_abs (Tolerance.Custom a r) = a ∧
    Tolerance.eps_rel (Tolerance.Custom a r) = r :=
  ⟨rfl, rfl⟩

/-- Claim C7: the Display rendering of NumalError produces exactly the four
documented strings, for every message. -/
theorem c7_display_strings (msg : String) :
    NumalError.display (NumalError.InvalidInput msg) = "INVALID INPUT: " ++ msg ∧
    NumalError.display NumalError.DidNotConverge = "FAILED TO CONVERGE" ∧
    NumalError.display NumalError.DerivativeNotComputable
      = "DERIVATIVE NOT COMPUTABLE" ∧
    NumalError.display (NumalError.LibErr msg) = "NUMAL LIB ERROR: " ++ msg :=
  ⟨rfl, rfl, rfl, rfl⟩

/-- Claim C8: for every finite a and every policy with non-negative eps_abs
and strictly positive eps_rel, `is_close(a, ±inf, policy)` succeeds with
Ok(true): the relative budget `eps_rel * |b|` is infinite. -/
theorem c8_infinite_reference (a : ℚ) (tol : Tolerance)
    (habs : F64.nonneg tol.eps_abs) (hrel : F64.pos tol.eps_rel) :
    is_close (F64.finite a) F64.inf tol = Except.ok true ∧
    is_close (F64.finite a) F64.negInf tol = Except.ok true := by
  unfold F64.nonneg at habs
  unfold F64.pos at hrel
  have hmul : F64.mul tol.eps_rel F64.inf = F64.inf := by
    cases hR : tol.eps_rel with
    | finite r =>
        rw [hR] at hrel
        simp only [F64.flt, decide_eq_true_eq] at hrel
        simp [F64.mul, hrel, hrel.ne']
    | inf => simp [F64.mul]
    | negInf => rw [hR] at hrel; simp [F64.flt] at hrel
    | nan => rw [hR] at hrel; simp [F64.flt] at hrel
  have hadd : F64.add tol.eps_abs F64.inf = F64.inf := by
    cases hA : tol.eps_abs with
    | finite q => simp [F64.add]
    | inf => simp [F64.add]
    | negInf => rw [hA] at habs; simp [F64.fle] at habs
    | nan => rw [hA] at habs; simp [F64.fle] at habs
  constructor <;> simp [is_close, F64.sub, F64.abs, hmul, hadd, F64.fle]

theorem c8_infinite_reference_witness :
    F64.nonneg (Tolerance.eps_abs (Tolerance.Custom (F64.finite 0) (F64.finite 1))) ∧
    F64.pos (Tolerance.eps_rel (Tolerance.Custom (F64.finite 0) (F64.finite 1))) ∧
    is_close (F64.finite 5) F64.inf
        (Tolerance.Custom (F64.finite 0) (F64.finite 1)) = Except.ok true :=
  ⟨by simp [F64.nonneg, F64.fle, Tolerance.eps_abs],
   by simp [F64.pos, F64.flt, Tolerance.eps_rel],
   (c8_infinite_reference 5 (Tolerance.Custom (F64.finite 0) (F64.finite 1))
     (by simp [F64.nonneg, F64.fle, Tolerance.eps_abs])
     (by simp [F64.pos, F64.flt, Tolerance.eps_rel])).1⟩

/-- Claim C9: for every tolerance policy, `is_close(x, x, policy)` fails
with DidNotConverge when x is +inf or -inf, because `|x - x|` is NaN. -/
theorem c9_inf_not_reflexive (tol : Tolerance) :
    is_close F64.inf F64.inf tol = Except.error NumalError.DidNotConverge ∧
    is_close F64.negInf F64.negInf tol = Except.error NumalError.DidNotConverge := by
  constructor <;> simp [is_close, F64.sub, F64.abs, F64.fle]

/-- Claim C10: a Custom policy with a NaN eps_abs or a NaN eps_rel rejects
every input pair: the budget expression is NaN, so the comparison is false
and `is_close` fails with DidNotConverge. -/
theorem c10_nan_threshold (a b ea er : F64)
    (h : ea = F64.nan ∨ er = F64.nan) :
    is_close a b (Tolerance.Custom ea er)
      = Except.error NumalError.DidNotConverge := by
  have hth : F64.add (Tolerance.Custom ea er).eps_abs
      (F64.mul (Tolerance.Custom ea er).eps_rel (F64.abs b)) = F64.nan := by
    rcases h with h | h <;> subst h
    · simp [Tolerance.eps_abs, F64.add]
    · cases ea <;>
        simp [Tolerance.eps_abs, Tolerance.eps_rel, F64.mul, F64.add]
  simp [is_close, hth, F64.fle_nan_right]

theorem c10_nan_threshold_witness :
    is_close (F64.finite 1) (F64.finite 1)
        (Tolerance.Custom F64.nan (F64.finite 0))
      = Except.error NumalError.DidNotConverge :=
  c10_nan_threshold (F64.finite 1) (F64.finite 1) F64.nan (F64.finite 0)
    (Or.inl rfl)

end Numal
